import Mathlib

/-!
Shallow embedding of the real-time task management system's broadcast hub
and task mutation surface (Go packages task / models), for checking the
specification's claims about the WebSocket broadcast hub.

Conventions of the embedding:
* time.Time is modelled as a natural number of time units; the Go zero
  value of time.Time is 0 (t.IsZero() becomes t = 0, t1.Before(t2) becomes
  t1 < t2).
* gorm's database is modelled as an explicit state (a list of tasks plus
  the set of existing user ids); database faults other than record-not-found
  are injected through a DBFaults record, since gorm can surface them on any
  call.
* a Go struct literal that omits a field gives that field its zero value;
  the embeddings of such literals set the omitted fields to the zero value
  explicitly.
* *websocket.Conn handles are modelled as natural numbers; each
  &sync.Mutex{} allocation is modelled as a fresh generation number, so the
  clients map (map[*websocket.Conn]*sync.Mutex) is an association list
  from connection id to mutex generation.
-/

namespace RTTMS

/-- Time in abstract units; the Go zero time is 0. -/
abbrev Time := Nat

/-! ### models package: task statuses, priorities, the Task record -/

def StatusPending : String := "pending"
def StatusInProgress : String := "in_progress"
def StatusCompleted : String := "completed"

def PriorityLow : String := "low"
def PriorityMedium : String := "medium"
def PriorityHigh : String := "high"

/-- models.Task: the persisted task record (gorm model). -/
structure Task where
  id : String
  title : String
  description : String
  status : String
  priority : String
  assignedTo : String
  createdBy : String
  createdAt : Time
  updatedAt : Time
  dueDate : Time
deriving Repr, DecidableEq

/-- The Go zero value of Task (every field at its zero value). -/
def Task.zero : Task :=
  { id := "", title := "", description := "", status := "", priority := ""
    assignedTo := "", createdBy := "", createdAt := 0, updatedAt := 0, dueDate := 0 }

/-! ### task package: message types and the WebSocket envelope -/

def MessageTypeTaskCreated : String := "task_created"
def MessageTypeTaskUpdated : String := "task_updated"
def MessageTypeTaskDeleted : String := "task_deleted"
def MessageTypeTaskAssigned : String := "task_assigned"

/-- WebSocketMessage: the JSON envelope written to every client.
In the source the Payload field is interface\x7b\x7d, but every message the
service emits carries a Task value, so the payload is embedded as Task. -/
structure WebSocketMessage where
  type : String
  payload : Task
  timestamp : Time
deriving Repr, DecidableEq

/-- NewWebSocketMessage sets Timestamp to time.Now(); the current time is an
explicit argument in the embedding. -/
def NewWebSocketMessage (msgType : String) (payload : Task) (now : Time) : WebSocketMessage :=
  { type := msgType, payload := payload, timestamp := now }

/-! ### task package: errors -/

/-- Error values the task service can return.  The named constructors are the
sentinel errors of the task package; the string-carrying constructors stand
for the fmt.Errorf / wrapped-database errors. -/
inductive TaskError
  | taskNotFound
  | invalidStatus
  | invalidPriority
  | invalidDueDate
  | unauthorized
  | invalidAssignment
  | titleRequired
  | titleTooLong
  | descriptionTooLong
  | dbError (op : String)
deriving Repr, DecidableEq

/-- TaskResponse wraps a single task. -/
structure TaskResponse where
  task : Task
deriving Repr, DecidableEq

/-! ### Database state and fault injection -/

/-- The relational store: task rows and the set of existing user ids. -/
structure DB where
  tasks : List Task
  users : List String
deriving Repr, DecidableEq

/-- db.First(&task, "id = ?", taskID): first task row with the given id. -/
def DB.firstTask (db : DB) (taskID : String) : Option Task :=
  db.tasks.find? (fun t => t.id == taskID)

/-- db.First(&user, "id = ?", uid) succeeds exactly when the user exists. -/
def DB.userExists (db : DB) (uid : String) : Bool :=
  db.users.contains uid

/-- Injected gorm faults: firstErr makes the record lookup fail with a
non-not-found error, writeErr makes the Create/Save/Delete call fail. -/
structure DBFaults where
  firstErr : Bool
  writeErr : Bool
deriving Repr, DecidableEq

/-- common.AppConfig: the part of the configuration the service reads. -/
structure Config where
  taskMaxDescLength : Int
deriving Repr, DecidableEq

/-! ### Validation (task/service.go) -/

/-- isValidStatus: membership in the three valid statuses (the source loops
over a slice of the valid values). -/
def isValidStatus (status : String) : Bool :=
  [StatusPending, StatusInProgress, StatusCompleted].contains status

/-- isValidPriority: membership in the three valid priorities. -/
def isValidPriority (priority : String) : Bool :=
  [PriorityLow, PriorityMedium, PriorityHigh].contains priority

/-- validateTask: the validation run by CreateTask, UpdateTask and
AssignTask before the database write.  Checks run in source order; the
first failing check decides the error. -/
def validateTask (cfg : Config) (now : Time) (db : DB) (task : Task) : Option TaskError :=
  if task.title = "" then some .titleRequired
  else if task.title.length > 255 then some .titleTooLong
  else
    -- maxDescLen falls back to 1000 when the configured value is <= 0
    let maxDescLen : Int := if cfg.taskMaxDescLength ≤ 0 then 1000 else cfg.taskMaxDescLength
    if (task.description.length : Int) > maxDescLen then some .descriptionTooLong
    else if task.status ≠ "" && !isValidStatus task.status then some .invalidStatus
    else if !isValidPriority task.priority then some .invalidPriority
    else if task.dueDate ≠ 0 && task.dueDate < now then some .invalidDueDate
    else if task.assignedTo ≠ "" && !db.userExists task.assignedTo then some .invalidAssignment
    else none

/-! ### Connection registry (task/service.go: clients map) -/

/-- RegisterClient: s.clients[conn] = &sync.Mutex\x7b\x7d.  Map assignment:
any previous binding of conn is replaced by the freshly allocated mutex
(generation newMutex).  The operation has no failure mode. -/
def RegisterClient (clients : List (Nat × Nat)) (conn : Nat) (newMutex : Nat) :
    List (Nat × Nat) :=
  (clients.filter (fun p => p.1 ≠ conn)) ++ [(conn, newMutex)]

/-- UnregisterClient: delete(s.clients, conn).  Deleting an absent key is a
no-op in Go. -/
def UnregisterClient (clients : List (Nat × Nat)) (conn : Nat) : List (Nat × Nat) :=
  clients.filter (fun p => p.1 ≠ conn)

/-! ### The four mutations (task/service.go)

Each mutation returns (result, emitted messages, new database state).  The
emitted-messages component records, in order, every value the mutation sends
into s.broadcast; the source sends at most one per call, after the database
write succeeds. -/

/-- helper: is an Except value an ok? -/
def excOk {α β : Type} : Except α β → Bool
  | .ok _ => true
  | .error _ => false

/-- CreateTaskRequest: the create payload. -/
structure CreateTaskRequest where
  title : String
  description : String
  priority : String
  assignedTo : String
  dueDate : Time
deriving Repr, DecidableEq

/-- UpdateTaskRequest: the partial-update payload (nil pointer = absent). -/
structure UpdateTaskRequest where
  title : Option String
  description : Option String
  status : Option String
  priority : Option String
  assignedTo : Option String
  dueDate : Option Time
deriving Repr, DecidableEq

/-- CreateTask: build the task (fresh uuid newID, timestamps now, status
pending), validate, insert, then send a task_created message whose
Timestamp field is omitted in the source literal (hence the zero time). -/
def CreateTask (cfg : Config) (req : CreateTaskRequest) (userID : String)
    (newID : String) (now : Time) (db : DB) (f : DBFaults) :
    Except TaskError TaskResponse × List WebSocketMessage × DB :=
  let task : Task :=
    { id := newID, title := req.title, description := req.description
      status := StatusPending, priority := req.priority
      assignedTo := req.assignedTo, createdBy := userID
      createdAt := now, updatedAt := now, dueDate := req.dueDate }
  match validateTask cfg now db task with
  | some e => (.error e, [], db)
  | none =>
    if f.writeErr then (.error (.dbError "failed to create task"), [], db)
    else
      let db2 : DB := { db with tasks := db.tasks ++ [task] }
      (.ok { task := task },
       [{ type := MessageTypeTaskCreated, payload := task, timestamp := 0 }], db2)

/-- canModifyTask: only the creator or the current assignee may modify. -/
def canModifyTask (userID : String) (task : Task) : Bool :=
  task.createdBy == userID || task.assignedTo == userID

/-- applies the non-nil fields of an UpdateTaskRequest to a task. -/
def applyUpdates (req : UpdateTaskRequest) (task : Task) : Task :=
  let task := match req.title with | some v => { task with title := v } | none => task
  let task := match req.description with | some v => { task with description := v } | none => task
  let task := match req.status with | some v => { task with status := v } | none => task
  let task := match req.priority with | some v => { task with priority := v } | none => task
  let task := match req.assignedTo with | some v => { task with assignedTo := v } | none => task
  let task := match req.dueDate with | some v => { task with dueDate := v } | none => task
  task

/-- UpdateTask: load, authorize via canModifyTask, apply updates, stamp
UpdatedAt, validate, save, then send a task_updated message (Timestamp
omitted in the source literal). -/
def UpdateTask (cfg : Config) (taskID : String) (req : UpdateTaskRequest)
    (userID : String) (now : Time) (db : DB) (f : DBFaults) :
    Except TaskError TaskResponse × List WebSocketMessage × DB :=
  if f.firstErr then (.error (.dbError "first"), [], db)
  else
    match db.firstTask taskID with
    | none => (.error .taskNotFound, [], db)
    | some task0 =>
      if !canModifyTask userID task0 then (.error .unauthorized, [], db)
      else
        let task : Task := { applyUpdates req task0 with updatedAt := now }
        match validateTask cfg now db task with
        | some e => (.error e, [], db)
        | none =>
          if f.writeErr then (.error (.dbError "failed to update task"), [], db)
          else
            let db2 : DB :=
              { db with tasks := db.tasks.map (fun t => if t.id == taskID then task else t) }
            (.ok { task := task },
             [{ type := MessageTypeTaskUpdated, payload := task, timestamp := 0 }], db2)

/-- DeleteTask: delete the row by id; RowsAffected 0 means not found; on
success send a task_deleted message whose payload is the zero Task with only
ID and Status ("deleted") set, Timestamp again omitted. -/
def DeleteTask (taskID : String) (db : DB) (f : DBFaults) :
    Except TaskError Unit × List WebSocketMessage × DB :=
  if f.writeErr then (.error (.dbError "failed to delete task"), [], db)
  else
    let remaining := db.tasks.filter (fun t => t.id ≠ taskID)
    if db.tasks.length - remaining.length = 0 then (.error .taskNotFound, [], db)
    else
      let db2 : DB := { db with tasks := remaining }
      (.ok (),
       [{ type := MessageTypeTaskDeleted
          payload := { Task.zero with id := taskID, status := "deleted" }
          timestamp := 0 }], db2)

/-- AssignTask: load, set AssignedTo and UpdatedAt, validate, save, then
send a message whose Type is MessageTypeTaskUpdated (the source uses the
task_updated constant here, not task_assigned).  Note there is no caller
identity argument and no canModifyTask check. -/
def AssignTask (cfg : Config) (taskID : String) (assignedTo : String)
    (now : Time) (db : DB) (f : DBFaults) :
    Except TaskError TaskResponse × List WebSocketMessage × DB :=
  if f.firstErr then (.error (.dbError "first"), [], db)
  else
    match db.firstTask taskID with
    | none => (.error .taskNotFound, [], db)
    | some task0 =>
      let task : Task := { task0 with assignedTo := assignedTo, updatedAt := now }
      match validateTask cfg now db task with
      | some e => (.error e, [], db)
      | none =>
        if f.writeErr then (.error (.dbError "failed to assign task"), [], db)
        else
          let db2 : DB :=
            { db with tasks := db.tasks.map (fun t => if t.id == taskID then task else t) }
          (.ok { task := task },
           [{ type := MessageTypeTaskUpdated, payload := task, timestamp := 0 }], db2)

/-! ### Broadcast hub operational model (handleBroadcast)

handleBroadcast ranges over the broadcast channel (a FIFO that Emit appends
to), and for each dequeued message spawns one goroutine per registered
client; each goroutine takes that client's mutex, performs WriteJSON, and on
error calls UnregisterClient.  The model is a small-step relation: a
dispatch step dequeues one message and spawns the pending write tasks for
the then-registered clients (the range over s.clients under RLock); a write
task then runs at an arbitrary later point — the scheduler chooses which
pending goroutine runs next, constrained only by the per-client mutex,
which the atomicity of a step already enforces. -/

/-- Hub state: the FIFO queue of emitted event ids, the list of event ids
already dispatched (in dispatch order), the pending per-connection write
goroutines, the clients registry, and the global log of completed writes in
completion order. -/
structure HubState where
  queue : List Nat
  dispatched : List Nat
  pending : List (Nat × Nat)
  clients : List (Nat × Nat)
  delivered : List (Nat × Nat)
deriving Repr, DecidableEq

/-- Events a connection c received, in the order they were written to it. -/
def deliveredTo (s : HubState) (c : Nat) : List Nat :=
  (s.delivered.filter (fun p => p.1 == c)).map (fun p => p.2)

/-- One step of the hub: an Emit call, a dispatch pass of handleBroadcast,
or the completion of one spawned write goroutine (succeeding or failing). -/
inductive HubStep : HubState → HubState → Prop
  | emit (s : HubState) (e : Nat) :
      HubStep s { s with queue := s.queue ++ [e] }
  | dispatch (s : HubState) (e : Nat) (rest : List Nat) (h : s.queue = e :: rest) :
      HubStep s { s with
        queue := rest
        dispatched := s.dispatched ++ [e]
        pending := s.pending ++ s.clients.map (fun p => (p.1, e)) }
  | writeOk (s : HubState) (c e : Nat) (h : (c, e) ∈ s.pending) :
      HubStep s { s with
        pending := s.pending.erase (c, e)
        delivered := s.delivered ++ [(c, e)] }
  | writeErr (s : HubState) (c e : Nat) (h : (c, e) ∈ s.pending) :
      HubStep s { s with
        pending := s.pending.erase (c, e)
        clients := UnregisterClient s.clients c }

/-- Reflexive-transitive closure of HubStep: a possible execution. -/
inductive Reaches : HubState → HubState → Prop
  | refl (s : HubState) : Reaches s s
  | step (s t u : HubState) (h1 : Reaches s t) (h2 : HubStep t u) : Reaches s u

/-! ### Fan-out write call (handleBroadcast goroutine body)

The goroutine body is m.Lock(); WriteJSON; on error UnregisterClient.  No
SetWriteDeadline is ever called on the broadcast path, so the WriteJSON
call runs with no deadline: only a transport failure makes it return an
error, no matter how long the write takes. -/

/-- The write deadline in force during the fan-out WriteJSON call: the
source never calls SetWriteDeadline in handleBroadcast, so there is none. -/
def broadcastWriteDeadline : Option Time := none

/-- Whether a WriteJSON call returns an error: a broken transport always
does; a slow write only does when a deadline is set and exceeded. -/
def writeJSONErr (deadline : Option Time) (writeDuration : Time) (pipeBroken : Bool) : Bool :=
  pipeBroken ||
    (match deadline with
     | some d => decide (d < writeDuration)
     | none => false)

/-- The registry after one fan-out goroutine finishes its write to c:
unchanged on success, c removed on error (the WriteJSON err branch). -/
def fanoutWrite (clients : List (Nat × Nat)) (c : Nat)
    (writeDuration : Time) (pipeBroken : Bool) : List (Nat × Nat) :=
  if writeJSONErr broadcastWriteDeadline writeDuration pipeBroken
  then UnregisterClient clients c
  else clients

/-! ### Connection lifecycle (task/handler.go WebSocket)

The handler upgrades, sets a 60-unit read deadline, registers the client,
defers UnregisterClient + conn.Close, and loops: ReadMessage; on error
break; otherwise reset the deadline and, if the message type is Ping,
answer with a Pong (breaking if that write fails).  The loop is modelled
over a finite list of read results; the Bool in the result tells whether
the loop has exited (the deferred cleanup runs exactly then). -/

/-- gorilla/websocket message type constants. -/
def PingMessage : Nat := 9
def PongMessage : Nat := 10

/-- One result of a conn.ReadMessage call: an error, or a message of a
given type (with, for ping messages, whether the pong write fails). -/
inductive ReadEvent
  | readErr (unexpectedClose : Bool)
  | message (messageType : Nat) (pongWriteFails : Bool)
deriving Repr, DecidableEq

/-- Observable effects of the handler on the connection and the registry. -/
inductive Effect
  | register
  | unregister
  | close
  | setReadDeadline (t : Time)
  | writeMessage (messageType : Nat)
deriving Repr, DecidableEq

/-- The read loop body: effects produced, and whether the loop exited. -/
def readLoop : List ReadEvent → List Effect × Bool
  | [] => ([], false)
  | ReadEvent.readErr _ :: _ => ([], true)
  | ReadEvent.message t pongFails :: rest =>
    if t = PingMessage then
      if pongFails then
        ([Effect.setReadDeadline 60, Effect.writeMessage PongMessage], true)
      else
        let r := readLoop rest
        (Effect.setReadDeadline 60 :: Effect.writeMessage PongMessage :: r.1, r.2)
    else
      let r := readLoop rest
      (Effect.setReadDeadline 60 :: r.1, r.2)

/-- The WebSocket handler: on upgrade failure it returns without
registering; otherwise it sets the initial deadline, registers, runs the
read loop, and — when the loop exits — runs the deferred UnregisterClient
and conn.Close, in that order. -/
def wsHandler (upgradeOk : Bool) (events : List ReadEvent) : List Effect × Bool :=
  if upgradeOk then
    let r := readLoop events
    if r.2 then
      (Effect.setReadDeadline 60 :: Effect.register ::
        (r.1 ++ [Effect.unregister, Effect.close]), true)
    else
      (Effect.setReadDeadline 60 :: Effect.register :: r.1, false)
  else ([], true)

/-- Whether, after the effect list runs, the connection is still
registered (register sets, unregister clears; initially not registered). -/
def stillRegistered (effects : List Effect) : Bool :=
  effects.foldl
    (fun b e =>
      match e with
      | Effect.register => true
      | Effect.unregister => false
      | _ => b)
    false

/-! ### Hub delivery-order scenario: one connection, two events -/

/-- Initial hub state: connection 7 registered, events 0 then 1 emitted. -/
def hubInit : HubState :=
  { queue := [0, 1], dispatched := [], pending := [], clients := [(7, 0)], delivered := [] }

/-- After dispatching event 0. -/
def hubS1 : HubState :=
  { queue := [1], dispatched := [0], pending := [(7, 0)], clients := [(7, 0)], delivered := [] }

/-- After dispatching event 1 (both write goroutines now pending). -/
def hubS2 : HubState :=
  { queue := [], dispatched := [0, 1], pending := [(7, 0), (7, 1)], clients := [(7, 0)]
    delivered := [] }

/-- The goroutine writing event 1 runs first. -/
def hubS3 : HubState :=
  { queue := [], dispatched := [0, 1], pending := [(7, 0)], clients := [(7, 0)]
    delivered := [(7, 1)] }

/-- Then the goroutine writing event 0 runs: connection 7 saw 1 before 0. -/
def hubBad : HubState :=
  { queue := [], dispatched := [0, 1], pending := [], clients := [(7, 0)]
    delivered := [(7, 1), (7, 0)] }

/-- Whether the log receives e1 before e2 (first occurrences, both present). -/
def receivesInOrder (log : List Nat) (e1 e2 : Nat) : Bool :=
  match log.findIdx? (fun x => x == e1), log.findIdx? (fun x => x == e2) with
  | some i, some j => decide (i < j)
  | _, _ => false

/-! ### Concrete fixtures for the mutation scenarios -/

/-- A configuration with the usual description limit. -/
def cfgEx : Config := { taskMaxDescLength := 1000 }

/-- An existing task: created by u0, currently assigned to u1, due at 100. -/
def taskT1 : Task :=
  { id := "t1", title := "T", description := "", status := "pending"
    priority := "low", assignedTo := "u1", createdBy := "u0"
    createdAt := 1, updatedAt := 1, dueDate := 100 }

/-- A store holding taskT1 and users u1, u2. -/
def dbEx : DB := { tasks := [taskT1], users := ["u1", "u2"] }

/-- No injected database faults. -/
def noFaults : DBFaults := { firstErr := false, writeErr := false }

/-- A valid create request. -/
def reqEx : CreateTaskRequest :=
  { title := "T2", description := "", priority := "low", assignedTo := "u1", dueDate := 100 }

/-- An update request with every field absent. -/
def ureqEmpty : UpdateTaskRequest :=
  { title := none, description := none, status := none, priority := none
    assignedTo := none, dueDate := none }

/-! ## Theorems -/

/-- Removing c from a registry in which no pair has first component c is a
no-op. -/
theorem unregister_absent_eq_self (reg : List (Nat × Nat)) (c : Nat)
    (h : ∀ p ∈ reg, p.1 ≠ c) : UnregisterClient reg c = reg := by
  unfold UnregisterClient
  exact List.filter_eq_self.mpr (fun p hp => by simpa using h p hp)

/-- C4 (counterexample): registering the same connection twice is a silent
success — RegisterClient is a total operation with no failure mode, and the
second call simply overwrites the stored write guard (mutex generation 0
becomes 1), leaving the connection registered once. -/
theorem registerClient_duplicate_silent_success :
    RegisterClient (RegisterClient [] 7 0) 7 1 = [(7, 1)] := by decide

/-- C4 (amended): RegisterClient always succeeds; it binds the connection to
the freshly allocated write guard, leaves every other connection's
membership unchanged, and a duplicate registration silently replaces the
previous guard rather than failing. -/
theorem registerClient_upsert (reg : List (Nat × Nat)) (c m : Nat) :
    (c, m) ∈ RegisterClient reg c m ∧
    (∀ d n, d ≠ c → ((d, n) ∈ RegisterClient reg c m ↔ (d, n) ∈ reg)) ∧
    (∀ n, (c, n) ∈ RegisterClient reg c m → n = m) := by
  unfold RegisterClient
  refine ⟨List.mem_append_right _ (List.mem_singleton.mpr rfl), ?_, ?_⟩
  · intro d n hdc
    simp [List.mem_filter, hdc]
  · intro n hn
    rcases List.mem_append.mp hn with h | h
    · have h2 := (List.mem_filter.mp h).2
      simp at h2
    · simpa using (List.mem_singleton.mp h)

/-- C4 (witness for the amended theorem at a concrete registry). -/
theorem registerClient_upsert_witness :
    (7, 5) ∈ RegisterClient [(3, 0)] 7 5 ∧
    ((3, 0) ∈ RegisterClient [(3, 0)] 7 5 ↔ (3, 0) ∈ [(3, 0)]) ∧
    ((7, 9) ∈ RegisterClient [(3, 0)] 7 5 → (9 : Nat) = 5) :=
  ⟨(registerClient_upsert [(3, 0)] 7 5).1,
   (registerClient_upsert [(3, 0)] 7 5).2.1 3 0 (by decide),
   (registerClient_upsert [(3, 0)] 7 5).2.2 9⟩

/-- On a registry whose connection identities are duplicate-free, one
removal changes the length by zero or one. -/
theorem unregister_length (reg : List (Nat × Nat)) (c : Nat)
    (hnd : (reg.map Prod.fst).Nodup) :
    (UnregisterClient reg c).length = reg.length ∨
    (UnregisterClient reg c).length + 1 = reg.length := by
  induction reg with
  | nil => left; rfl
  | cons p rest ih =>
    simp only [List.map_cons, List.nodup_cons] at hnd
    have hrec := ih hnd.2
    by_cases hc : p.1 = c
    · right
      have hrest : UnregisterClient rest c = rest := by
        refine unregister_absent_eq_self rest c ?_
        intro q hq hqc
        exact hnd.1 (hc ▸ hqc ▸ List.mem_map_of_mem Prod.fst hq)
      have hstep : UnregisterClient (p :: rest) c = UnregisterClient rest c := by
        unfold UnregisterClient
        rw [List.filter_cons, if_neg (by simp [hc])]
      rw [hstep, hrest, List.length_cons]
    · have hstep : UnregisterClient (p :: rest) c = p :: UnregisterClient rest c := by
        unfold UnregisterClient
        rw [List.filter_cons, if_pos (by simp [hc])]
      rw [hstep]
      simp only [List.length_cons]
      omega

/-- C7: UnregisterClient is idempotent, removing an absent connection is a
no-op (not an error), and — on a registry whose connection identities are
duplicate-free, as RegisterClient maintains — one removal changes the
membership count by exactly zero or one. -/
theorem unregisterClient_idempotent_noop (reg : List (Nat × Nat)) (c : Nat) :
    ((∀ m, (c, m) ∉ reg) → UnregisterClient reg c = reg) ∧
    UnregisterClient (UnregisterClient reg c) c = UnregisterClient reg c ∧
    ((reg.map Prod.fst).Nodup →
      (UnregisterClient reg c).length = reg.length ∨
      (UnregisterClient reg c).length + 1 = reg.length) := by
  refine ⟨?_, ?_, ?_⟩
  · intro h
    refine unregister_absent_eq_self reg c ?_
    intro p hp heq
    exact h p.2 (by simpa [← heq] using hp)
  · unfold UnregisterClient
    simp [List.filter_filter]
  · exact unregister_length reg c

/-- C7 (witness): removing absent connection 9 from a concrete registry is a
no-op; a second removal of 3 is a no-op; the count drops by exactly one. -/
theorem unregisterClient_idempotent_noop_witness :
    UnregisterClient [(3, 0), (7, 1)] 9 = [(3, 0), (7, 1)] ∧
    UnregisterClient (UnregisterClient [(3, 0), (7, 1)] 3) 3 =
      UnregisterClient [(3, 0), (7, 1)] 3 ∧
    ((UnregisterClient [(3, 0), (7, 1)] 3).length = 2 ∨
      (UnregisterClient [(3, 0), (7, 1)] 3).length + 1 = 2) :=
  ⟨(unregisterClient_idempotent_noop [(3, 0), (7, 1)] 9).1 (by intro m; simp),
   (unregisterClient_idempotent_noop [(3, 0), (7, 1)] 3).2.1,
   (unregisterClient_idempotent_noop [(3, 0), (7, 1)] 3).2.2 (by decide)⟩

/-- The read loop itself never touches the registry and never closes the
connection: those effects only come from the deferred cleanup. -/
theorem readLoop_no_registry_effects (events : List ReadEvent) :
    ∀ e ∈ (readLoop events).1,
      e ≠ Effect.register ∧ e ≠ Effect.unregister ∧ e ≠ Effect.close := by
  induction events with
  | nil => intro e he; simp [readLoop] at he
  | cons ev rest ih =>
    intro e he
    cases ev with
    | readErr b => simp [readLoop] at he
    | message t pf =>
      by_cases ht : t = PingMessage
      · cases pf with
        | true =>
          simp [readLoop, ht] at he
          rcases he with he | he <;> simp [he]
        | false =>
          simp [readLoop, ht] at he
          rcases he with he | he | he
          · simp [he]
          · simp [he]
          · exact ih e he
      · simp [readLoop, ht] at he
        rcases he with he | he
        · simp [he]
        · exact ih e he

/-- Folding the registration tracker over effects that contain neither a
register nor an unregister leaves the accumulator unchanged. -/
theorem foldl_reg_const (es : List Effect) (b : Bool)
    (h : ∀ e ∈ es, e ≠ Effect.register ∧ e ≠ Effect.unregister) :
    es.foldl
      (fun b e =>
        match e with
        | Effect.register => true
        | Effect.unregister => false
        | _ => b)
      b = b := by
  induction es generalizing b with
  | nil => rfl
  | cons e rest ih =>
    have he := h e (List.mem_cons_self e rest)
    have hrest : ∀ x ∈ rest, x ≠ Effect.register ∧ x ≠ Effect.unregister :=
      fun x hx => h x (List.mem_cons_of_mem e hx)
    cases e with
    | register => exact absurd rfl he.1
    | unregister => exact absurd rfl he.2
    | close => exact ih b hrest
    | setReadDeadline t => exact ih b hrest
    | writeMessage t => exact ih b hrest

/-- C3: whenever the read loop exits — for any sequence of read results and
any exit reason (read error, or failed pong write) — the handler's effect
trace ends with UnregisterClient followed by conn.Close, both always run,
and the connection is no longer registered at the end. -/
theorem ws_cleanup_on_exit (events : List ReadEvent)
    (h : (wsHandler true events).2 = true) :
    (wsHandler true events).1 =
      Effect.setReadDeadline 60 :: Effect.register ::
        ((readLoop events).1 ++ [Effect.unregister, Effect.close]) ∧
    Effect.unregister ∈ (wsHandler true events).1 ∧
    Effect.close ∈ (wsHandler true events).1 ∧
    stillRegistered (wsHandler true events).1 = false := by
  have hr2 : (readLoop events).2 = true := by
    by_cases hb : (readLoop events).2
    · exact hb
    · simp [wsHandler, hb] at h
  have hshape : (wsHandler true events).1 =
      Effect.setReadDeadline 60 :: Effect.register ::
        ((readLoop events).1 ++ [Effect.unregister, Effect.close]) := by
    simp [wsHandler, hr2]
  refine ⟨hshape, ?_, ?_, ?_⟩
  · rw [hshape]; simp
  · rw [hshape]; simp
  · rw [hshape]
    have hes := foldl_reg_const (readLoop events).1 true
      (fun e he => ⟨(readLoop_no_registry_effects events e he).1,
                    (readLoop_no_registry_effects events e he).2.1⟩)
    show List.foldl _ false _ = false
    rw [List.foldl_cons, List.foldl_cons, List.foldl_append]
    show List.foldl _ (List.foldl _ true (readLoop events).1)
      [Effect.unregister, Effect.close] = false
    rw [hes]
    rfl

/-- C3 (witness): a read loop that exits at once with a read error yields
the trace register, unregister, close, leaving the connection
unregistered. -/
theorem ws_cleanup_on_exit_witness :
    (wsHandler true [ReadEvent.readErr false]).1 =
      Effect.setReadDeadline 60 :: Effect.register ::
        ((readLoop [ReadEvent.readErr false]).1 ++ [Effect.unregister, Effect.close]) ∧
    Effect.unregister ∈ (wsHandler true [ReadEvent.readErr false]).1 ∧
    Effect.close ∈ (wsHandler true [ReadEvent.readErr false]).1 ∧
    stillRegistered (wsHandler true [ReadEvent.readErr false]).1 = false :=
  ws_cleanup_on_exit [ReadEvent.readErr false] rfl

/-- C8: a successfully read inbound ping is answered immediately with a
pong (the write is attempted even when it will fail, in which case the loop
exits); any other message type adds no write at all — only the uniform
deadline reset that every successful read performs; and no step of the read
loop touches the registry or closes the connection. -/
theorem ws_ping_answered_with_pong (t : Nat) (pf : Bool) (rest : List ReadEvent) :
    (t = PingMessage → pf = false →
      readLoop (ReadEvent.message t pf :: rest) =
        (Effect.setReadDeadline 60 :: Effect.writeMessage PongMessage :: (readLoop rest).1,
         (readLoop rest).2)) ∧
    (t = PingMessage → pf = true →
      readLoop (ReadEvent.message t pf :: rest) =
        ([Effect.setReadDeadline 60, Effect.writeMessage PongMessage], true)) ∧
    (t ≠ PingMessage →
      readLoop (ReadEvent.message t pf :: rest) =
        (Effect.setReadDeadline 60 :: (readLoop rest).1, (readLoop rest).2)) ∧
    (∀ e ∈ (readLoop (ReadEvent.message t pf :: rest)).1,
      e ≠ Effect.register ∧ e ≠ Effect.unregister ∧ e ≠ Effect.close) := by
  refine ⟨?_, ?_, ?_, readLoop_no_registry_effects (ReadEvent.message t pf :: rest)⟩
  · intro ht hpf
    subst ht hpf
    simp [readLoop]
  · intro ht hpf
    subst ht hpf
    simp [readLoop]
  · intro ht
    simp [readLoop, ht]

/-- C8 (witness): a lone ping is answered with exactly one pong after the
deadline reset; a lone text message (type 1) produces no write. -/
theorem ws_ping_answered_with_pong_witness :
    readLoop [ReadEvent.message 9 false] =
      ([Effect.setReadDeadline 60, Effect.writeMessage PongMessage], false) ∧
    readLoop [ReadEvent.message 1 false] =
      ([Effect.setReadDeadline 60], false) :=
  ⟨(ws_ping_answered_with_pong 9 false []).1 rfl rfl,
   (ws_ping_answered_with_pong 1 false []).2.2.1 (by decide)⟩

/-- The scheduler may run the two pending write goroutines newest-first:
this execution of the hub is valid. -/
theorem hubInit_reaches_bad : Reaches hubInit hubBad := by
  have h1 : HubStep hubInit hubS1 := HubStep.dispatch hubInit 0 [1] rfl
  have h2 : HubStep hubS1 hubS2 := HubStep.dispatch hubS1 1 [] rfl
  have h3 : HubStep hubS2 hubS3 := HubStep.writeOk hubS2 7 1 (by decide)
  have h4 : HubStep hubS3 hubBad := HubStep.writeOk hubS3 7 0 (by decide)
  exact .step _ _ _ (.step _ _ _ (.step _ _ _ (.step _ _ _ (.refl _) h1) h2) h3) h4

/-- C2 (counterexample): an execution of the hub in which connection 7 is
registered before event 0 is dispatched and stays registered throughout,
yet receives event 1 before event 0: because handleBroadcast spawns a fresh
goroutine per write, the two pending writes can be scheduled in either
order — the per-connection mutex only prevents them from overlapping. -/
theorem hub_delivery_order_cex :
    Reaches hubInit hubBad ∧
    hubBad.clients = hubInit.clients ∧
    deliveredTo hubBad 7 = [1, 0] ∧
    receivesInOrder (deliveredTo hubBad 7) 0 1 = false :=
  ⟨hubInit_reaches_bad, by decide, by decide, by decide⟩

/-- C2 (amended): the single consumer dequeues events and spawns their
per-connection write goroutines in emission order — along any execution the
dispatched list only grows at its end and stays a prefix of the full
emission sequence (dispatched ++ queue) — but the completion order of the
spawned writes, and hence per-connection delivery order across distinct
events, is chosen by the scheduler. -/
theorem hub_dispatch_fifo (s u : HubState) (h : Reaches s u) :
    (∃ d, u.dispatched = s.dispatched ++ d) ∧
    (∃ t2, u.dispatched ++ u.queue = s.dispatched ++ s.queue ++ t2) := by
  induction h with
  | refl => exact ⟨⟨[], by simp⟩, ⟨[], by simp⟩⟩
  | step t u h1 h2 ih =>
    obtain ⟨⟨d, hd⟩, ⟨t2, ht⟩⟩ := ih
    cases h2 with
    | emit e =>
      refine ⟨⟨d, by simpa using hd⟩, ⟨t2 ++ [e], ?_⟩⟩
      show t.dispatched ++ (t.queue ++ [e]) = s.dispatched ++ s.queue ++ (t2 ++ [e])
      rw [← List.append_assoc, ht, List.append_assoc, List.append_assoc]
    | dispatch e rest hq =>
      refine ⟨⟨d ++ [e], ?_⟩, ⟨t2, ?_⟩⟩
      · show t.dispatched ++ [e] = s.dispatched ++ (d ++ [e])
        rw [hd, List.append_assoc]
      · show t.dispatched ++ [e] ++ rest = s.dispatched ++ s.queue ++ t2
        rw [← ht, hq, List.append_assoc]
        rfl
    | writeOk c e hp => exact ⟨⟨d, hd⟩, ⟨t2, ht⟩⟩
    | writeErr c e hp => exact ⟨⟨d, hd⟩, ⟨t2, ht⟩⟩

/-- C2 (witness for the amended theorem along the concrete execution). -/
theorem hub_dispatch_fifo_witness :
    (∃ d, hubBad.dispatched = hubInit.dispatched ++ d) ∧
    (∃ t2, hubBad.dispatched ++ hubBad.queue = hubInit.dispatched ++ hubInit.queue ++ t2) :=
  hub_dispatch_fifo hubInit hubBad hubInit_reaches_bad

/-- C5: when a fan-out write to connection c fails, the hub takes a step
that unregisters exactly c — every m leaves with it, no other connection's
membership changes, nothing already delivered changes, and the event queue
is untouched — and an Emit is still possible immediately afterwards (Emit
has no error path: the write failure never reaches the emitting
mutation). -/
theorem hub_write_failure_isolated (s : HubState) (c e : Nat)
    (h : (c, e) ∈ s.pending) :
    HubStep s
      { s with pending := s.pending.erase (c, e), clients := UnregisterClient s.clients c } ∧
    (∀ m, (c, m) ∉ UnregisterClient s.clients c) ∧
    (∀ d n, d ≠ c → ((d, n) ∈ UnregisterClient s.clients c ↔ (d, n) ∈ s.clients)) ∧
    (∀ k, HubStep
      { s with pending := s.pending.erase (c, e), clients := UnregisterClient s.clients c }
      { s with pending := s.pending.erase (c, e), clients := UnregisterClient s.clients c
               queue := s.queue ++ [k] }) := by
  refine ⟨HubStep.writeErr s c e h, ?_, ?_, ?_⟩
  · intro m hm
    have h2 := (List.mem_filter.mp hm).2
    simp at h2
  · intro d n hdc
    unfold UnregisterClient
    simp [List.mem_filter, hdc]
  · intro k
    exact HubStep.emit _ k

/-- C5 (witness at a concrete hub state). -/
theorem hub_write_failure_isolated_witness :
    HubStep
      { queue := [4], dispatched := [3], pending := [(7, 3)]
        clients := [(7, 0), (8, 1)], delivered := [(8, 3)] }
      { queue := [4], dispatched := [3], pending := ([(7, 3)] : List (Nat × Nat)).erase (7, 3)
        clients := UnregisterClient [(7, 0), (8, 1)] 7, delivered := [(8, 3)] } ∧
    ((7, 0) ∉ UnregisterClient [(7, 0), (8, 1)] 7) ∧
    ((8, 1) ∈ UnregisterClient [(7, 0), (8, 1)] 7 ↔ (8, 1) ∈ [(7, 0), (8, 1)]) :=
  ⟨(hub_write_failure_isolated
      { queue := [4], dispatched := [3], pending := [(7, 3)]
        clients := [(7, 0), (8, 1)], delivered := [(8, 3)] } 7 3 (by decide)).1,
   (hub_write_failure_isolated
      { queue := [4], dispatched := [3], pending := [(7, 3)]
        clients := [(7, 0), (8, 1)], delivered := [(8, 3)] } 7 3 (by decide)).2.1 0,
   (hub_write_failure_isolated
      { queue := [4], dispatched := [3], pending := [(7, 3)]
        clients := [(7, 0), (8, 1)], delivered := [(8, 3)] } 7 3 (by decide)).2.2.1 8 1
     (by decide)⟩

/-- C6 (counterexample): the fan-out write path installs no write deadline
(handleBroadcast never calls SetWriteDeadline), so a write that takes
1000000 time units with an intact transport is not an error and the slow
connection is not unregistered. -/
theorem fanout_no_write_timeout_cex :
    broadcastWriteDeadline = none ∧
    writeJSONErr broadcastWriteDeadline 1000000 false = false ∧
    fanoutWrite [(7, 0)] 7 1000000 false = [(7, 0)] := by
  refine ⟨rfl, rfl, ?_⟩
  unfold fanoutWrite
  rfl

/-- C6 (amended): no write timeout exists on the fan-out path: however long
a write takes, only a transport failure makes WriteJSON return an error;
a slow successful write leaves the registry unchanged, and only a failed
write unregisters the connection.  (Dispatcher progress is nevertheless
independent of slow connections because each write runs in its own spawned
goroutine — the dispatch step of HubStep fires regardless of pending
writes.) -/
theorem fanout_write_no_deadline (clients : List (Nat × Nat)) (c : Nat) (dur : Time) :
    fanoutWrite clients c dur false = clients ∧
    fanoutWrite clients c dur true = UnregisterClient clients c := by
  unfold fanoutWrite writeJSONErr broadcastWriteDeadline
  simp

/-- validateTask can fail for many reasons, but never with the
unauthorized sentinel: authorization is checked only by canModifyTask. -/
theorem validateTask_ne_unauthorized (cfg : Config) (now : Time) (db : DB) (task : Task) :
    validateTask cfg now db task ≠ some TaskError.unauthorized := by
  unfold validateTask
  intro h
  repeat' split at h
  all_goals try rw [ite_eq_iff] at h
  all_goals try rcases h with ⟨-, h⟩ | ⟨-, h⟩
  all_goals simp_all

/-- Shape of every CreateTask outcome: an error with nothing emitted and
the store untouched, or a success emitting exactly one task_created message
whose payload is the response task, which is now in the store. -/
theorem createTask_shape (cfg : Config) (req : CreateTaskRequest) (userID newID : String)
    (now : Time) (db : DB) (f : DBFaults) :
    (∃ e, (CreateTask cfg req userID newID now db f).1 = .error e ∧
      (CreateTask cfg req userID newID now db f).2.1 = [] ∧
      (CreateTask cfg req userID newID now db f).2.2 = db) ∨
    (∃ r, (CreateTask cfg req userID newID now db f).1 = .ok r ∧
      (CreateTask cfg req userID newID now db f).2.1 =
        [{ type := MessageTypeTaskCreated, payload := r.task, timestamp := 0 }] ∧
      r.task ∈ (CreateTask cfg req userID newID now db f).2.2.tasks) := by
  simp only [CreateTask]
  split
  · left; exact ⟨_, rfl, rfl, rfl⟩
  · split
    · left; exact ⟨_, rfl, rfl, rfl⟩
    · right; exact ⟨_, rfl, rfl, by simp⟩

/-- Shape of every UpdateTask outcome. -/
theorem updateTask_shape (cfg : Config) (taskID : String) (ureq : UpdateTaskRequest)
    (userID : String) (now : Time) (db : DB) (f : DBFaults) :
    (∃ e, (UpdateTask cfg taskID ureq userID now db f).1 = .error e ∧
      (UpdateTask cfg taskID ureq userID now db f).2.1 = [] ∧
      (UpdateTask cfg taskID ureq userID now db f).2.2 = db) ∨
    (∃ r, (UpdateTask cfg taskID ureq userID now db f).1 = .ok r ∧
      (UpdateTask cfg taskID ureq userID now db f).2.1 =
        [{ type := MessageTypeTaskUpdated, payload := r.task, timestamp := 0 }] ∧
      r.task ∈ (UpdateTask cfg taskID ureq userID now db f).2.2.tasks) := by
  simp only [UpdateTask]
  split
  · left; exact ⟨_, rfl, rfl, rfl⟩
  · split
    · left; exact ⟨_, rfl, rfl, rfl⟩
    · next t0 heq =>
      split
      · left; exact ⟨_, rfl, rfl, rfl⟩
      · split
        · left; exact ⟨_, rfl, rfl, rfl⟩
        · split
          · left; exact ⟨_, rfl, rfl, rfl⟩
          · right
            refine ⟨_, rfl, rfl, ?_⟩
            have hmem : t0 ∈ db.tasks := List.mem_of_find?_eq_some heq
            have hid : (t0.id == taskID) = true := by
              simpa using List.find?_some heq
            exact List.mem_map.mpr ⟨t0, hmem, by simp [hid]⟩

/-- Shape of every DeleteTask outcome: on success exactly one task_deleted
message is emitted whose payload is the zero task carrying only the deleted
id and the terminal marker, and no row with that id remains. -/
theorem deleteTask_shape (taskID : String) (db : DB) (f : DBFaults) :
    (∃ e, (DeleteTask taskID db f).1 = .error e ∧
      (DeleteTask taskID db f).2.1 = [] ∧ (DeleteTask taskID db f).2.2 = db) ∨
    ((DeleteTask taskID db f).1 = .ok () ∧
      (DeleteTask taskID db f).2.1 =
        [{ type := MessageTypeTaskDeleted
           payload := { Task.zero with id := taskID, status := "deleted" }
           timestamp := 0 }] ∧
      ∀ t ∈ (DeleteTask taskID db f).2.2.tasks, t.id ≠ taskID) := by
  simp only [DeleteTask]
  split
  · left; exact ⟨_, rfl, rfl, rfl⟩
  · split
    · left; exact ⟨_, rfl, rfl, rfl⟩
    · right
      refine ⟨rfl, rfl, ?_⟩
      intro t ht
      simpa using (List.mem_filter.mp ht).2

/-- Shape of every AssignTask outcome: the error is never the unauthorized
sentinel; a success emits exactly one message whose Type is
MessageTypeTaskUpdated and whose payload is the response task, now stored,
with AssignedTo set to the requested assignee. -/
theorem assignTask_shape (cfg : Config) (taskID assignee : String)
    (now : Time) (db : DB) (f : DBFaults) :
    (∃ e, (AssignTask cfg taskID assignee now db f).1 = .error e ∧
      e ≠ TaskError.unauthorized ∧
      (AssignTask cfg taskID assignee now db f).2.1 = [] ∧
      (AssignTask cfg taskID assignee now db f).2.2 = db) ∨
    (∃ r, (AssignTask cfg taskID assignee now db f).1 = .ok r ∧
      (AssignTask cfg taskID assignee now db f).2.1 =
        [{ type := MessageTypeTaskUpdated, payload := r.task, timestamp := 0 }] ∧
      r.task ∈ (AssignTask cfg taskID assignee now db f).2.2.tasks ∧
      r.task.assignedTo = assignee) := by
  simp only [AssignTask]
  split
  · left; exact ⟨_, rfl, fun h => TaskError.noConfusion h, rfl, rfl⟩
  · split
    · left; exact ⟨_, rfl, fun h => TaskError.noConfusion h, rfl, rfl⟩
    · next t0 heq =>
      split
      · next e hv =>
        left
        exact ⟨e, rfl, fun h => validateTask_ne_unauthorized cfg now db _ (h ▸ hv), rfl, rfl⟩
      · split
        · left; exact ⟨_, rfl, fun h => TaskError.noConfusion h, rfl, rfl⟩
        · right
          refine ⟨_, rfl, rfl, ?_, rfl⟩
          have hmem : t0 ∈ db.tasks := List.mem_of_find?_eq_some heq
          have hid : (t0.id == taskID) = true := by
            simpa using List.find?_some heq
          exact List.mem_map.mpr ⟨t0, hmem, by simp [hid]⟩

/-- C1 (counterexample): a successful AssignTask emits an event whose kind
is task_updated, not task_assigned — the MessageTypeTaskAssigned constant
exists but the assign path sends MessageTypeTaskUpdated. -/
theorem assignTask_emits_task_updated_cex :
    excOk (AssignTask cfgEx "t1" "u2" 10 dbEx noFaults).1 = true ∧
    (AssignTask cfgEx "t1" "u2" 10 dbEx noFaults).2.1.map (fun m => m.type) =
      [MessageTypeTaskUpdated] ∧
    MessageTypeTaskUpdated ≠ MessageTypeTaskAssigned :=
  ⟨rfl, rfl, by decide⟩

/-- C1 (amended): each of the four mutations emits exactly one broadcast
event if and only if it commits successfully and none on any error; the
kinds are task_created for create, task_updated for update, task_deleted
for delete, and task_updated (not task_assigned) for assign; the payload of
a successful create/update/assign event is the post-commit response task,
and the delete event carries the task identity with the terminal "deleted"
status marker. -/
theorem mutations_emit_once_iff_commit (cfg : Config) (req : CreateTaskRequest)
    (ureq : UpdateTaskRequest) (userID newID taskID assignee : String)
    (now : Time) (db : DB) (f : DBFaults) :
    ((excOk (CreateTask cfg req userID newID now db f).1 = true ↔
        (CreateTask cfg req userID newID now db f).2.1.length = 1) ∧
      ∀ r, (CreateTask cfg req userID newID now db f).1 = .ok r →
        (CreateTask cfg req userID newID now db f).2.1 =
          [{ type := MessageTypeTaskCreated, payload := r.task, timestamp := 0 }]) ∧
    ((excOk (UpdateTask cfg taskID ureq userID now db f).1 = true ↔
        (UpdateTask cfg taskID ureq userID now db f).2.1.length = 1) ∧
      ∀ r, (UpdateTask cfg taskID ureq userID now db f).1 = .ok r →
        (UpdateTask cfg taskID ureq userID now db f).2.1 =
          [{ type := MessageTypeTaskUpdated, payload := r.task, timestamp := 0 }]) ∧
    ((excOk (DeleteTask taskID db f).1 = true ↔
        (DeleteTask taskID db f).2.1.length = 1) ∧
      ((DeleteTask taskID db f).1 = .ok () →
        (DeleteTask taskID db f).2.1 =
          [{ type := MessageTypeTaskDeleted
             payload := { Task.zero with id := taskID, status := "deleted" }
             timestamp := 0 }])) ∧
    ((excOk (AssignTask cfg taskID assignee now db f).1 = true ↔
        (AssignTask cfg taskID assignee now db f).2.1.length = 1) ∧
      ∀ r, (AssignTask cfg taskID assignee now db f).1 = .ok r →
        (AssignTask cfg taskID assignee now db f).2.1 =
          [{ type := MessageTypeTaskUpdated, payload := r.task, timestamp := 0 }]) := by
  refine ⟨?_, ?_, ?_, ?_⟩
  · rcases createTask_shape cfg req userID newID now db f with
      ⟨e, h1, h2, _⟩ | ⟨r0, h1, h2, _⟩
    · exact ⟨by rw [h1, h2]; simp [excOk], fun r hr => by rw [h1] at hr; cases hr⟩
    · refine ⟨by rw [h1, h2]; simp [excOk], fun r hr => ?_⟩
      rw [h1] at hr
      cases hr
      exact h2
  · rcases updateTask_shape cfg taskID ureq userID now db f with
      ⟨e, h1, h2, _⟩ | ⟨r0, h1, h2, _⟩
    · exact ⟨by rw [h1, h2]; simp [excOk], fun r hr => by rw [h1] at hr; cases hr⟩
    · refine ⟨by rw [h1, h2]; simp [excOk], fun r hr => ?_⟩
      rw [h1] at hr
      cases hr
      exact h2
  · rcases deleteTask_shape taskID db f with ⟨e, h1, h2, _⟩ | ⟨h1, h2, _⟩
    · exact ⟨by rw [h1, h2]; simp [excOk], fun hr => by rw [h1] at hr; cases hr⟩
    · exact ⟨by rw [h1, h2]; simp [excOk], fun _ => h2⟩
  · rcases assignTask_shape cfg taskID assignee now db f with
      ⟨e, h1, _, h2, _⟩ | ⟨r0, h1, h2, _, _⟩
    · exact ⟨by rw [h1, h2]; simp [excOk], fun r hr => by rw [h1] at hr; cases hr⟩
    · refine ⟨by rw [h1, h2]; simp [excOk], fun r hr => ?_⟩
      rw [h1] at hr
      cases hr
      exact h2

/-- C1 (witness for the amended theorem): the concrete successful create
emits exactly the one task_created event with the stored task as payload. -/
theorem mutations_emit_once_iff_commit_witness :
    (excOk (CreateTask cfgEx reqEx "u0" "t9" 10 dbEx noFaults).1 = true ↔
      (CreateTask cfgEx reqEx "u0" "t9" 10 dbEx noFaults).2.1.length = 1) ∧
    (CreateTask cfgEx reqEx "u0" "t9" 10 dbEx noFaults).2.1 =
      [{ type := MessageTypeTaskCreated
         payload := { id := "t9", title := "T2", description := "", status := "pending"
                      priority := "low", assignedTo := "u1", createdBy := "u0"
                      createdAt := 10, updatedAt := 10, dueDate := 100 }
         timestamp := 0 }] :=
  ⟨(mutations_emit_once_iff_commit cfgEx reqEx ureqEmpty "u0" "t9" "t1" "u2" 10 dbEx
      noFaults).1.1,
   (mutations_emit_once_iff_commit cfgEx reqEx ureqEmpty "u0" "t9" "t1" "u2" 10 dbEx
      noFaults).1.2
     { task := { id := "t9", title := "T2", description := "", status := "pending"
                 priority := "low", assignedTo := "u1", createdBy := "u0"
                 createdAt := 10, updatedAt := 10, dueDate := 100 } }
     rfl⟩

/-- C9 (counterexample): a successful create committing at time 10 emits
its event with the zero timestamp, not the commit time: the mutation paths
build the envelope literal without the Timestamp field (NewWebSocketMessage,
which would stamp the current time, is not called there). -/
theorem event_timestamp_zero_cex :
    excOk (CreateTask cfgEx reqEx "u0" "t9" 10 dbEx noFaults).1 = true ∧
    (CreateTask cfgEx reqEx "u0" "t9" 10 dbEx noFaults).2.1.map (fun m => m.timestamp) =
      [0] ∧
    (NewWebSocketMessage MessageTypeTaskCreated Task.zero 10).timestamp = 10 ∧
    (0 : Time) ≠ 10 :=
  ⟨rfl, rfl, rfl, by decide⟩

/-- C9 (amended): every event any of the four mutations emits carries the
zero-value timestamp (Go's zero time, the epoch of the envelope's timestamp
field), never the commit time; only the unused NewWebSocketMessage
constructor stamps the current time. -/
theorem emitted_timestamp_always_zero (cfg : Config) (req : CreateTaskRequest)
    (ureq : UpdateTaskRequest) (userID newID taskID assignee : String)
    (now : Time) (db : DB) (f : DBFaults) (mt : String) (p : Task) (tnow : Time) :
    (∀ m ∈ (CreateTask cfg req userID newID now db f).2.1, m.timestamp = 0) ∧
    (∀ m ∈ (UpdateTask cfg taskID ureq userID now db f).2.1, m.timestamp = 0) ∧
    (∀ m ∈ (DeleteTask taskID db f).2.1, m.timestamp = 0) ∧
    (∀ m ∈ (AssignTask cfg taskID assignee now db f).2.1, m.timestamp = 0) ∧
    (NewWebSocketMessage mt p tnow).timestamp = tnow := by
  refine ⟨?_, ?_, ?_, ?_, rfl⟩
  · intro m hm
    rcases createTask_shape cfg req userID newID now db f with
      ⟨e, _, h2, _⟩ | ⟨r0, _, h2, _⟩ <;> rw [h2] at hm
    · simp at hm
    · rw [List.mem_singleton] at hm; subst hm; rfl
  · intro m hm
    rcases updateTask_shape cfg taskID ureq userID now db f with
      ⟨e, _, h2, _⟩ | ⟨r0, _, h2, _⟩ <;> rw [h2] at hm
    · simp at hm
    · rw [List.mem_singleton] at hm; subst hm; rfl
  · intro m hm
    rcases deleteTask_shape taskID db f with ⟨e, _, h2, _⟩ | ⟨_, h2, _⟩ <;> rw [h2] at hm
    · simp at hm
    · rw [List.mem_singleton] at hm; subst hm; rfl
  · intro m hm
    rcases assignTask_shape cfg taskID assignee now db f with
      ⟨e, _, _, h2, _⟩ | ⟨r0, _, h2, _, _⟩ <;> rw [h2] at hm
    · simp at hm
    · rw [List.mem_singleton] at hm; subst hm; rfl

/-- C9 (witness for the amended theorem): the concrete emitted create event
has timestamp 0, and NewWebSocketMessage at time 5 stamps 5. -/
theorem emitted_timestamp_always_zero_witness :
    ({ type := MessageTypeTaskCreated
       payload := { id := "t9", title := "T2", description := "", status := "pending"
                    priority := "low", assignedTo := "u1", createdBy := "u0"
                    createdAt := 10, updatedAt := 10, dueDate := 100 }
       timestamp := 0 } : WebSocketMessage).timestamp = 0 ∧
    (NewWebSocketMessage "task_created" Task.zero 5).timestamp = 5 :=
  ⟨(emitted_timestamp_always_zero cfgEx reqEx ureqEmpty "u0" "t9" "t1" "u2" 10 dbEx
      noFaults "task_created" Task.zero 5).1 _ (by decide),
   (emitted_timestamp_always_zero cfgEx reqEx ureqEmpty "u0" "t9" "t1" "u2" 10 dbEx
      noFaults "task_created" Task.zero 5).2.2.2.2⟩

/-- C10: AssignTask performs no caller authorization — it takes no caller
identity, never returns the unauthorized error, and on success the task is
reassigned to the requested assignee — while UpdateTask returns the
unauthorized error whenever the task exists (and the lookup does not fault)
and the caller is neither the creator nor the current assignee. -/
theorem assignTask_no_authorization (cfg : Config) (taskID assignee userID : String)
    (ureq : UpdateTaskRequest) (now : Time) (db : DB) (f : DBFaults) :
    ((AssignTask cfg taskID assignee now db f).1 ≠ .error TaskError.unauthorized) ∧
    (∀ r, (AssignTask cfg taskID assignee now db f).1 = .ok r →
      r.task.assignedTo = assignee) ∧
    (f.firstErr = false → ∀ t, db.firstTask taskID = some t →
      canModifyTask userID t = false →
      (UpdateTask cfg taskID ureq userID now db f).1 = .error TaskError.unauthorized) := by
  refine ⟨?_, ?_, ?_⟩
  · rcases assignTask_shape cfg taskID assignee now db f with
      ⟨e, h1, hne, _, _⟩ | ⟨r0, h1, _, _, _⟩
    · rw [h1]
      intro hbad
      exact hne (Except.error.inj hbad)
    · rw [h1]
      intro hbad
      cases hbad
  · rcases assignTask_shape cfg taskID assignee now db f with
      ⟨e, h1, _, _, _⟩ | ⟨r0, h1, _, _, ha⟩
    · intro r hr
      rw [h1] at hr
      cases hr
    · intro r hr
      rw [h1] at hr
      cases hr
      exact ha
  · intro hf t ht hcm
    simp [UpdateTask, hf, ht, hcm]

/-- C10 (witness): on the concrete store, assigning t1 (created by u0,
assigned to u1) to u2 does not return unauthorized, while an update by the
unrelated caller u9 does. -/
theorem assignTask_no_authorization_witness :
    (AssignTask cfgEx "t1" "u2" 10 dbEx noFaults).1 ≠ .error TaskError.unauthorized ∧
    (UpdateTask cfgEx "t1" ureqEmpty "u9" 10 dbEx noFaults).1 =
      .error TaskError.unauthorized :=
  ⟨(assignTask_no_authorization cfgEx "t1" "u2" "u9" ureqEmpty 10 dbEx noFaults).1,
   (assignTask_no_authorization cfgEx "t1" "u2" "u9" ureqEmpty 10 dbEx noFaults).2.2
     rfl taskT1 rfl rfl⟩

end RTTMS
